import Mathlib

/-!
Verification of the Scribe YouTube transcript acquisition pipeline
(`src/types.ts`, errors in `src/lib/errors.ts`) against its specification.

Embedding conventions:
* JavaScript strings are embedded as `List Char` (`Str`).
* Node `Buffer` byte sequences are embedded as `List Nat`, each entry < 256.
* JavaScript numbers occurring in the pipeline are integers, except that
  `parseInt` can produce `NaN`; numbers are embedded as `Option Int`
  (`JsNum`), where `none` models `NaN` and propagates through arithmetic.
* Platform primitives used by the source (WHATWG `URL`, `URLSearchParams`,
  `Buffer` base64 / UTF-8 codecs, `encodeURIComponent` /
  `decodeURIComponent`) are modelled as explicit Lean functions whose
  behavior matches the platform on the inputs the pipeline feeds them.
* The two network calls (`fetchPageData`, `fetchTranscriptViaApi`) are
  modelled as oracle inputs: `transcribeVideo` takes the fetched
  `PageData` and the API call's outcome as explicit parameters.
-/

abbrev Str := List Char

def str (s : String) : Str := s.toList

/-- JavaScript whitespace for `String.prototype.trim` and the regex class
`\s` (the characters that can actually occur in this pipeline's data). -/
def isWS (c : Char) : Bool :=
  c == ' ' || c == '\t' || c == '\n' || c == '\r' || c == '\x0b' ||
  c == '\x0c' || c == '\u00A0'

/-- Model of `String.prototype.trim`. -/
def jsTrim (s : Str) : Str :=
  ((s.dropWhile isWS).reverse.dropWhile isWS).reverse

/-- Model of `String.prototype.split` with a single-character separator
(and of `URLSearchParams`' splitting on `&`). -/
def splitOnChar (sep : Char) : Str → List Str
  | [] => [[]]
  | c :: cs =>
    if c == sep then [] :: splitOnChar sep cs
    else
      match splitOnChar sep cs with
      | h :: t => (c :: h) :: t
      | [] => [[c]]

/-- Model of `String.prototype.startsWith`. -/
def jsStartsWith (s p : Str) : Bool := s.take p.length == p

/-- Model of `String.prototype.toLowerCase` (ASCII range, which is all the
pipeline compares). -/
def jsToLower (s : Str) : Str := s.map Char.toLower

/-- Model of `String.prototype.padStart(len, "0")`. -/
def padZero (len : Nat) (s : Str) : Str :=
  List.replicate (len - s.length) '0' ++ s

-- ---------------------------------------------------------------------------
-- UTF-8 (Buffer.from(str, "utf8") and buffer.toString("utf8"))
-- ---------------------------------------------------------------------------

/-- UTF-8 encoding of one scalar value (model of how `Buffer.from(s, "utf8")`
encodes each character). -/
def utf8EncodeChar (c : Char) : List Nat :=
  let n := c.toNat
  if n < 0x80 then [n]
  else if n < 0x800 then [0xc0 + n / 64, 0x80 + n % 64]
  else if n < 0x10000 then [0xe0 + n / 4096, 0x80 + n / 64 % 64, 0x80 + n % 64]
  else [0xf0 + n / 262144, 0x80 + n / 4096 % 64, 0x80 + n / 64 % 64, 0x80 + n % 64]

/-- Model of `Buffer.from(s, "utf8")`. -/
def utf8Encode (s : Str) : List Nat := s.flatMap utf8EncodeChar

/-- Fueled worker for UTF-8 decoding; fuel bounds the number of decoded
characters (one step consumes at least one byte). -/
def utf8DecodeAux : Nat → List Nat → Str
  | 0, _ => []
  | _ + 1, [] => []
  | fuel + 1, b :: rest =>
    if b < 0x80 then Char.ofNat b :: utf8DecodeAux fuel rest
    else if 0xc0 ≤ b ∧ b < 0xe0 then
      match rest with
      | b2 :: rest2 => Char.ofNat ((b - 0xc0) * 64 + (b2 - 0x80)) :: utf8DecodeAux fuel rest2
      | [] => ['�']
    else if 0xe0 ≤ b ∧ b < 0xf0 then
      match rest with
      | b2 :: b3 :: rest3 =>
        Char.ofNat ((b - 0xe0) * 4096 + (b2 - 0x80) * 64 + (b3 - 0x80)) :: utf8DecodeAux fuel rest3
      | _ => ['�']
    else '�' :: utf8DecodeAux fuel rest

/-- Model of `buffer.toString("utf8")` for the well-formed sequences this
pipeline produces (it only ever decodes ASCII in practice). -/
def utf8Decode (l : List Nat) : Str := utf8DecodeAux l.length l

-- ---------------------------------------------------------------------------
-- Percent-encoding (encodeURIComponent / decodeURIComponent / URLSearchParams)
-- ---------------------------------------------------------------------------

def hexDigitChar (n : Nat) : Char := (str "0123456789ABCDEF").getD n '0'

def hexVal (c : Char) : Option Nat :=
  if '0' ≤ c ∧ c ≤ '9' then some (c.toNat - 48)
  else if 'A' ≤ c ∧ c ≤ 'F' then some (c.toNat - 55)
  else if 'a' ≤ c ∧ c ≤ 'f' then some (c.toNat - 87)
  else none

/-- The characters `encodeURIComponent` leaves unescaped. -/
def isUriUnreserved (c : Char) : Bool :=
  (65 ≤ c.toNat && c.toNat ≤ 90) || (97 ≤ c.toNat && c.toNat ≤ 122) ||
  (48 ≤ c.toNat && c.toNat ≤ 57) ||
  c == '-' || c == '_' || c == '.' || c == '!' || c == '~' || c == '*' ||
  c == '\'' || c == '(' || c == ')'

/-- Model of `encodeURIComponent`. -/
def encodeUriComponent (s : Str) : Str :=
  s.flatMap fun c =>
    if isUriUnreserved c then [c]
    else (utf8EncodeChar c).flatMap fun b => ['%', hexDigitChar (b / 16), hexDigitChar (b % 16)]

/-- Percent-decoding to bytes; `none` models the `URIError` that
`decodeURIComponent` throws on a malformed escape sequence. -/
def percentDecodeBytes : Str → Option (List Nat)
  | [] => some []
  | '%' :: h1 :: h2 :: rest =>
    match hexVal h1, hexVal h2 with
    | some v1, some v2 => (percentDecodeBytes rest).map fun bs => (v1 * 16 + v2) :: bs
    | _, _ => none
  | '%' :: _ => none
  | c :: rest => (percentDecodeBytes rest).map fun bs => utf8EncodeChar c ++ bs

/-- Model of `decodeURIComponent`; `none` models a thrown `URIError`. -/
def decodeUriComponent (s : Str) : Option Str :=
  (percentDecodeBytes s).map utf8Decode

/-- Lenient form-decoding used by `URLSearchParams` component values:
`+` becomes a space, malformed escapes are left literal. -/
def formDecodeBytes : Str → List Nat
  | [] => []
  | '%' :: h1 :: h2 :: rest =>
    match hexVal h1, hexVal h2 with
    | some v1, some v2 => (v1 * 16 + v2) :: formDecodeBytes rest
    | _, _ => utf8EncodeChar '%' ++ formDecodeBytes (h1 :: h2 :: rest)
  | '+' :: rest => utf8EncodeChar ' ' ++ formDecodeBytes rest
  | c :: rest => utf8EncodeChar c ++ formDecodeBytes rest

def formDecode (s : Str) : Str := utf8Decode (formDecodeBytes s)

-- ---------------------------------------------------------------------------
-- Base64 (buffer.toString("base64") and Buffer.from(s, "base64"))
-- ---------------------------------------------------------------------------

def b64Chars : Str :=
  str "ABCDEFGHIJKLMNOPQRSTUVWXYZabcdefghijklmnopqrstuvwxyz0123456789+/"

def sextetChar (n : Nat) : Char := b64Chars.getD n 'A'

def charSextetAux (c : Char) : Str → Nat → Option Nat
  | [], _ => none
  | d :: ds, i => if c == d then some i else charSextetAux c ds (i + 1)

def charSextet (c : Char) : Option Nat := charSextetAux c b64Chars 0

/-- Model of `buffer.toString("base64")`: standard alphabet with `=`
padding. -/
def b64encode : List Nat → Str
  | x :: y :: z :: rest =>
    sextetChar (x / 4) :: sextetChar (x % 4 * 16 + y / 16) ::
    sextetChar (y % 16 * 4 + z / 64) :: sextetChar (z % 64) :: b64encode rest
  | [x, y] => [sextetChar (x / 4), sextetChar (x % 4 * 16 + y / 16), sextetChar (y % 16 * 4), '=']
  | [x] => [sextetChar (x / 4), sextetChar (x % 4 * 16), '=', '=']
  | [] => []

def b64decodeSextets : List Nat → List Nat
  | a :: b :: c :: d :: rest =>
    (a * 4 + b / 16) :: (b % 16 * 16 + c / 4) :: (c % 4 * 64 + d) :: b64decodeSextets rest
  | [a, b, c] => [a * 4 + b / 16, b % 16 * 16 + c / 4]
  | [a, b] => [a * 4 + b / 16]
  | _ => []

/-- Model of `Buffer.from(s, "base64")`: non-alphabet characters (including
padding) are ignored, then sextets are packed into bytes. -/
def b64decode (s : Str) : List Nat := b64decodeSextets (s.filterMap charSextet)

-- ---------------------------------------------------------------------------
-- JavaScript numbers as Option Int (none = NaN), and parseInt
-- ---------------------------------------------------------------------------

abbrev JsNum := Option Int

def jsAdd : JsNum → JsNum → JsNum
  | some a, some b => some (a + b)
  | _, _ => none

def jsSub : JsNum → JsNum → JsNum
  | some a, some b => some (a - b)
  | _, _ => none

/-- `Math.floor(a / b)` for an integer `a` and positive integer literal `b`. -/
def jsFloorDiv : JsNum → Int → JsNum
  | some a, b => some (Int.fdiv a b)
  | none, _ => none

/-- JavaScript `%` (remainder with the sign of the dividend). -/
def jsMod : JsNum → Int → JsNum
  | some a, b => some (Int.tmod a b)
  | none, _ => none

def digitsVal (l : Str) : Nat := l.foldl (fun acc c => acc * 10 + (c.toNat - 48)) 0

def isDigitChar (c : Char) : Bool := 48 ≤ c.toNat && c.toNat ≤ 57

/-- Model of `parseInt(s, 10)`: skip leading whitespace, optional sign,
then the longest digit run; `none` models `NaN` when no digits follow. -/
def jsParseInt (s : Str) : JsNum :=
  let t := s.dropWhile isWS
  match t with
  | '-' :: rest =>
    let ds := rest.takeWhile isDigitChar
    if ds = [] then none else some (-(digitsVal ds : Int))
  | '+' :: rest =>
    let ds := rest.takeWhile isDigitChar
    if ds = [] then none else some (digitsVal ds)
  | _ =>
    let ds := t.takeWhile isDigitChar
    if ds = [] then none else some (digitsVal ds)

def natToCharsAux : Nat → Nat → Str → Str
  | 0, _, acc => acc
  | fuel + 1, n, acc =>
    let d := Char.ofNat (48 + n % 10)
    if n < 10 then d :: acc else natToCharsAux fuel (n / 10) (d :: acc)

/-- Decimal rendering of a natural number (model of `String(n)`). -/
def natToChars (n : Nat) : Str := natToCharsAux (n + 1) n []

/-- Model of `String(n)` for an integer-valued JavaScript number. -/
def intToChars : Int → Str
  | .ofNat n => natToChars n
  | .negSucc n => '-' :: natToChars (n + 1)

/-- Model of `String(x)` for a `JsNum` (`String(NaN) = "NaN"`). -/
def jsNumToChars : JsNum → Str
  | some i => intToChars i
  | none => str "NaN"

-- ---------------------------------------------------------------------------
-- WHATWG URL model (new URL(...), url.hostname, url.pathname, searchParams)
-- ---------------------------------------------------------------------------

structure JsURL where
  hostname : Str
  pathname : Str
  search : Str
  deriving DecidableEq

def notUrlDelim (c : Char) : Bool := !(c == '/') && !(c == '?') && !(c == '#')

/-- Model of `new URL(s)` for the `http(s)://host/path?query#fragment`
inputs this pipeline constructs; `none` models the thrown `TypeError` for
inputs without a parseable scheme or host. -/
def parseURL (s : Str) : Option JsURL :=
  let afterScheme : Option Str :=
    if s.take 8 = str "https://" then some (s.drop 8)
    else if s.take 7 = str "http://" then some (s.drop 7)
    else none
  match afterScheme with
  | none => none
  | some r =>
    let host := r.takeWhile notUrlDelim
    if host = [] then none
    else
      let afterHost := r.dropWhile notUrlDelim
      let noFrag := afterHost.takeWhile (fun c => !(c == '#'))
      let path := noFrag.takeWhile (fun c => !(c == '?'))
      some { hostname := jsToLower host
             pathname := if path = [] then ['/'] else path
             search := (noFrag.dropWhile (fun c => !(c == '?'))).drop 1 }

/-- Model of `url.searchParams.get(key)` (`search` carries no leading `?`). -/
def searchParamsGet (search : Str) (key : Str) : Option Str :=
  let pairs := splitOnChar '&' search
  (pairs.find? fun p => formDecode (p.takeWhile (fun c => !(c == '='))) == key).map
    fun p => formDecode ((p.dropWhile (fun c => !(c == '='))).drop 1)

-- ---------------------------------------------------------------------------
-- Video ID extraction (extractVideoId, src/types.ts lines 142-183)
-- ---------------------------------------------------------------------------

/-- The character class `[a-zA-Z0-9_-]` of the video-ID regexes. -/
def isIdChar (c : Char) : Bool :=
  (97 ≤ c.toNat && c.toNat ≤ 122) || (65 ≤ c.toNat && c.toNat ≤ 90) ||
  (48 ≤ c.toNat && c.toNat ≤ 57) || c == '_' || c == '-'

/-- The anchored regex test `/^[a-zA-Z0-9_-]{11}$/.test(s)`. -/
def isBareVideoId (s : Str) : Bool := s.length == 11 && s.all isIdChar

/-- Model of `/^www\./` stripping on the hostname. -/
def stripWww (h : Str) : Str := if h.take 4 = str "www." then h.drop 4 else h

/-- One alternative of the path regex
`/^\/(shorts|embed|v)\/([a-zA-Z0-9_-]{11})/`: a literal prefix followed by
11 id characters (the capture group). -/
def pathAltMatch (pre : Str) (path : Str) : Option Str :=
  if path.take pre.length = pre then
    let cand := (path.drop pre.length).take 11
    if cand.length == 11 && cand.all isIdChar then some cand else none
  else none

/-- The anchored path regex for `/shorts/<id>`, `/embed/<id>`, `/v/<id>`
(alternatives tried in the regex's order). -/
def pathVideoId (path : Str) : Option Str :=
  match pathAltMatch (str "/shorts/") path with
  | some r => some r
  | none =>
    match pathAltMatch (str "/embed/") path with
    | some r => some r
    | none => pathAltMatch (str "/v/") path

/-- One position's attempt for the unanchored last-resort regex
`/(?:v=|\/(?:embed|v|shorts)\/)([a-zA-Z0-9_-]{11})/`. -/
def lastResortAt (s : Str) : Option Str :=
  match pathAltMatch (str "v=") s with
  | some r => some r
  | none =>
    match pathAltMatch (str "/embed/") s with
    | some r => some r
    | none =>
      match pathAltMatch (str "/v/") s with
      | some r => some r
      | none => pathAltMatch (str "/shorts/") s

/-- Leftmost match of the last-resort regex over the whole string. -/
def lastResort : Str → Option Str
  | [] => none
  | c :: cs =>
    match lastResortAt (c :: cs) with
    | some r => some r
    | none => lastResort cs

/-- Embeds `extractVideoId` (src/types.ts lines 142-183). -/
def extractVideoId (input : Str) : Option Str :=
  let trimmed := jsTrim input
  if isBareVideoId trimmed then some trimmed
  else
    let viaUrl : Option Str :=
      match parseURL (if trimmed.take 4 = str "http" then trimmed else str "https://" ++ trimmed) with
      | none => none
      | some url =>
        let hostname := stripWww url.hostname
        if hostname = str "youtu.be" then
          let id := (splitOnChar '/' (url.pathname.drop 1)).headD []
          if id ≠ [] ∧ isBareVideoId id then some id else none
        else if hostname = str "youtube.com" ∨ hostname = str "m.youtube.com" then
          match searchParamsGet url.search (str "v") with
          | some v => if v ≠ [] ∧ isBareVideoId v then some v else pathVideoId url.pathname
          | none => pathVideoId url.pathname
        else none
    match viaUrl with
    | some id => some id
    | none => lastResort trimmed

-- ---------------------------------------------------------------------------
-- Transcript params codec (buildLangProto, buildTranscriptParams,
-- extractLangFromParams; src/types.ts lines 319-356 and 512-537)
-- ---------------------------------------------------------------------------

/-- Embeds `buildLangProto` (src/types.ts lines 319-330): inner proto with
field 2 = language code, base64-rendered then URL-encoded. `Buffer.from`
stores a single length byte, hence the `% 256`. -/
def buildLangProto (langCode : Str) : Str :=
  let langBytes := utf8Encode langCode
  let inner := [0x0a, 0x00] ++ [0x12, langBytes.length % 256] ++ langBytes ++ [0x1a, 0x00]
  encodeUriComponent (b64encode inner)

/-- Embeds `buildTranscriptParams` (src/types.ts lines 332-356). -/
def buildTranscriptParams (videoId langCode : Str) : Str :=
  let videoIdBytes := utf8Encode videoId
  let langProtoUrlEncoded := buildLangProto langCode
  let langProtoBytes := utf8Encode langProtoUrlEncoded
  let panelIdBytes := utf8Encode (str "engagement-panel-searchable-transcript-search-panel")
  let proto :=
    [0x0a, videoIdBytes.length % 256] ++ videoIdBytes ++
    [0x12, langProtoBytes.length % 256] ++ langProtoBytes ++
    [0x18, 0x01] ++
    [0x2a, panelIdBytes.length % 256] ++ panelIdBytes ++
    [0x30, 0x01, 0x38, 0x01, 0x40, 0x01]
  b64encode proto

/-- Model of `buffer.indexOf(value, byteOffset)`: `none` for the `-1`
result. -/
def bufIndexOfFrom (l : List Nat) (v : Nat) (start : Nat) : Option Nat :=
  ((l.drop start).findIdx? (fun b => b == v)).map (start + ·)

/-- Embeds `extractLangFromParams` (src/types.ts lines 512-537). `none`
results of the platform models take the code's `-1` / falsy / `catch`
branches, all of which yield `"en"`. -/
def extractLangFromParams (params : Str) : Str :=
  let decoded := b64decode params
  match bufIndexOfFrom decoded 0x12 12 with
  | none => str "en"
  | some tagPos =>
    let fieldLen := (decoded.getD (tagPos + 1) 0)
    if fieldLen = 0 then str "en"
    else
      let innerUrlEncoded := utf8Decode ((decoded.drop (tagPos + 2)).take fieldLen)
      match decodeUriComponent innerUrlEncoded with
      | none => str "en"
      | some innerBase64 =>
        let inner := b64decode innerBase64
        match bufIndexOfFrom inner 0x12 0 with
        | none => str "en"
        | some innerTag =>
          let innerLen := inner.getD (innerTag + 1) 0
          if innerLen = 0 then str "en"
          else utf8Decode ((inner.drop (innerTag + 2)).take innerLen)

-- ---------------------------------------------------------------------------
-- API response model and segment parsing (src/types.ts lines 61-92, 435-473)
-- ---------------------------------------------------------------------------

structure ElementsAttributedString where
  content : Option Str
  deriving DecidableEq

structure SnippetRun where
  text : Option Str
  deriving DecidableEq

structure Snippet where
  elementsAttributedString : Option ElementsAttributedString
  runs : Option (List SnippetRun)
  deriving DecidableEq

structure TranscriptSegmentRenderer where
  startMs : Option Str
  endMs : Option Str
  snippet : Option Snippet
  deriving DecidableEq

structure TranscriptSegmentItem where
  transcriptSegmentRenderer : Option TranscriptSegmentRenderer
  deriving DecidableEq

structure Overwrite where
  initialSegments : Option (List TranscriptSegmentItem)
  deriving DecidableEq

structure TransformArguments where
  transformTranscriptSegmentListArguments : Option Overwrite
  deriving DecidableEq

structure TransformEntityCommand where
  arguments : Option TransformArguments
  deriving DecidableEq

structure ElementsCommand where
  transformEntityCommand : Option TransformEntityCommand
  deriving DecidableEq

structure ApiAction where
  elementsCommand : Option ElementsCommand
  deriving DecidableEq

structure TranscriptApiResponse where
  actions : Option (List ApiAction)
  deriving DecidableEq

structure TranscriptSegment where
  text : Str
  startMs : JsNum
  durationMs : JsNum
  deriving DecidableEq

/-- The optional-chaining walk
`action.elementsCommand?.transformEntityCommand?.arguments?.transformTranscriptSegmentListArguments?.overwrite?.initialSegments`. -/
def actionSegments (action : ApiAction) : Option (List TranscriptSegmentItem) :=
  ((((action.elementsCommand.bind (·.transformEntityCommand)).bind
    (·.arguments)).bind (·.transformTranscriptSegmentListArguments)).bind
    (·.initialSegments))

/-- The text expression
`renderer.snippet?.elementsAttributedString?.content ?? renderer.snippet?.runs?.map((r) => r.text ?? "").join("") ?? ""`. -/
def snippetText (renderer : TranscriptSegmentRenderer) : Str :=
  match (renderer.snippet.bind (·.elementsAttributedString)).bind (·.content) with
  | some t => t
  | none =>
    match renderer.snippet.bind (·.runs) with
    | some runs => (runs.map fun r => r.text.getD []).flatten
    | none => []

/-- The regex replacement `text.replace(/\n/g, " ")`. -/
def replaceNewlines (s : Str) : Str := s.map fun c => if c == '\n' then ' ' else c

/-- The per-item loop body of `parseTranscriptSegments`: skip items without
a renderer, parse the millisecond fields, flatten/trim the text, drop
empty-text items. -/
def processSegmentItems : List TranscriptSegmentItem → List TranscriptSegment
  | [] => []
  | item :: rest =>
    match item.transcriptSegmentRenderer with
    | none => processSegmentItems rest
    | some renderer =>
      let startMs := jsParseInt (renderer.startMs.getD (str "0"))
      let endMs := jsParseInt (renderer.endMs.getD (str "0"))
      let durationMs := jsSub endMs startMs
      let text := jsTrim (replaceNewlines (snippetText renderer))
      if text = [] then processSegmentItems rest
      else { text := text, startMs := startMs, durationMs := durationMs } :: processSegmentItems rest

/-- The action loop of `parseTranscriptSegments`: skip actions with a
missing or empty segment list, return the first non-empty parsed result. -/
def parseActions : List ApiAction → List TranscriptSegment
  | [] => []
  | action :: rest =>
    match actionSegments action with
    | none => parseActions rest
    | some segs =>
      if segs.length = 0 then parseActions rest
      else
        let result := processSegmentItems segs
        if result.length > 0 then result else parseActions rest

/-- Embeds `parseTranscriptSegments` (src/types.ts lines 435-473). -/
def parseTranscriptSegments (apiResponse : TranscriptApiResponse) : List TranscriptSegment :=
  parseActions (apiResponse.actions.getD [])

-- ---------------------------------------------------------------------------
-- Format conversion helpers (src/types.ts lines 479-506)
-- ---------------------------------------------------------------------------

/-- Fueled worker for the regex replacement `.replace(/\s{2,}/g, " ")`;
fuel bounds the number of characters consumed (at least one per step). -/
def collapseWsAux : Nat → Str → Str
  | 0, _ => []
  | _ + 1, [] => []
  | fuel + 1, c :: cs =>
    if isWS c ∧ cs.head?.any isWS then ' ' :: collapseWsAux fuel (cs.dropWhile isWS)
    else c :: collapseWsAux fuel cs

/-- The regex replacement `.replace(/\s{2,}/g, " ")`: each maximal run of
two or more whitespace characters becomes one space; single whitespace
characters are untouched. -/
def collapseWs (s : Str) : Str := collapseWsAux s.length s

/-- Embeds `formatAsText` (src/types.ts lines 490-496). -/
def formatAsText (segments : List TranscriptSegment) : Str :=
  jsTrim (collapseWs (List.intercalate (str " ") (segments.map (·.text))))

/-- Embeds `msToSrtTimestamp` (src/types.ts lines 479-488). -/
def msToSrtTimestamp (ms : JsNum) : Str :=
  let totalSeconds := jsFloorDiv ms 1000
  let milliseconds := jsMod ms 1000
  let hours := jsFloorDiv totalSeconds 3600
  let minutes := jsFloorDiv (jsMod totalSeconds 3600) 60
  let seconds := jsMod totalSeconds 60
  padZero 2 (jsNumToChars hours) ++ str ":" ++ padZero 2 (jsNumToChars minutes) ++
    str ":" ++ padZero 2 (jsNumToChars seconds) ++ str "," ++ padZero 3 (jsNumToChars milliseconds)

/-- Embeds `formatAsSrt` (src/types.ts lines 498-506). -/
def formatAsSrt (segments : List TranscriptSegment) : Str :=
  List.intercalate (str "\n\n")
    (segments.enum.map fun p =>
      natToChars (p.1 + 1) ++ str "\n" ++ msToSrtTimestamp p.2.startMs ++ str " --> " ++
        msToSrtTimestamp (jsAdd p.2.startMs p.2.durationMs) ++ str "\n" ++ p.2.text)

-- ---------------------------------------------------------------------------
-- Page state model (src/types.ts lines 95-127, 189-195) and errors
-- (src/lib/errors.ts)
-- ---------------------------------------------------------------------------

structure TrackName where
  simpleText : Option Str
  deriving DecidableEq

structure CaptionTrack where
  baseUrl : Str
  languageCode : Str
  kind : Option Str
  name : Option TrackName
  deriving DecidableEq

structure PlayerCaptionsTracklistRenderer where
  captionTracks : Option (List CaptionTrack)
  deriving DecidableEq

structure Captions where
  playerCaptionsTracklistRenderer : Option PlayerCaptionsTracklistRenderer
  deriving DecidableEq

structure PlayabilityStatus where
  status : Option Str
  reason : Option Str
  deriving DecidableEq

structure PlayerResponse where
  captions : Option Captions
  playabilityStatus : Option PlayabilityStatus
  deriving DecidableEq

structure EngagementPanelSectionListRenderer where
  panelIdentifier : Option Str
  /-- Models the result of the substring search
  `/"getTranscriptEndpoint":\{"params":"([^"]+)"/` over the panel's JSON
  serialization (`extractTranscriptParams`, src/types.ts lines 301-304). -/
  getTranscriptParams : Option Str
  deriving DecidableEq

structure EngagementPanel where
  engagementPanelSectionListRenderer : Option EngagementPanelSectionListRenderer
  deriving DecidableEq

structure InitialData where
  engagementPanels : Option (List EngagementPanel)
  deriving DecidableEq

structure PageData where
  playerResponse : Option PlayerResponse
  initialData : Option InitialData
  visitorData : Option Str
  clientVersion : Str
  cookies : Str
  deriving DecidableEq

/-- The error classes of src/lib/errors.ts, with the constructor arguments
the source passes. -/
inductive ScribeError where
  | videoNotFound (videoId : Str)
  | captionsDisabled (videoId : Str)
  | languageNotAvailable (language : Str) (available : List Str)
  | transcriptionError (message : Str)
  deriving DecidableEq

/-- The outcome of the `fetchTranscriptViaApi` network call, supplied as an
oracle: a parsed response, the `CaptionsDisabledError` it throws on
`FAILED_PRECONDITION`, or a `TranscriptionError` with some message. -/
inductive ApiOutcome where
  | ok (resp : TranscriptApiResponse)
  | captionsDisabled
  | failure (msg : Str)
  deriving DecidableEq

/-- The message `fetchTranscriptViaApi` passes to `CaptionsDisabledError`
(src/types.ts line 423). -/
def apiPreconditionMsg : Str :=
  str "(API precondition failed — captions may be unavailable)"

/-- Embeds `extractTranscriptParams` (src/types.ts lines 288-305). -/
def extractTranscriptParams (initialData : InitialData) : Option Str :=
  let panels := initialData.engagementPanels.getD []
  match panels.find? (fun p =>
      (p.engagementPanelSectionListRenderer.bind (·.panelIdentifier)) ==
        some (str "engagement-panel-searchable-transcript")) with
  | none => none
  | some transcriptPanel =>
    transcriptPanel.engagementPanelSectionListRenderer.bind (·.getTranscriptParams)

/-- The repeated track-list expression
`pageData.playerResponse?.captions?.playerCaptionsTracklistRenderer?.captionTracks ?? []`. -/
def tracksOf (pageData : PageData) : List CaptionTrack :=
  (((pageData.playerResponse.bind (·.captions)).bind
    (·.playerCaptionsTracklistRenderer)).bind (·.captionTracks)).getD []

/-- The playability check `status && status !== "OK" && status !== "LIVE_STREAM_OFFLINE"`
shared by `listAvailableLanguages` and `transcribeVideo`. -/
def playabilityBlocked (pageData : PageData) : Bool :=
  match (pageData.playerResponse.bind (·.playabilityStatus)).bind (·.status) with
  | some s => !(s == str "OK") && !(s == str "LIVE_STREAM_OFFLINE")
  | none => false

structure LanguageInfo where
  code : Str
  name : Str
  isAutoGenerated : Bool
  deriving DecidableEq

/-- Embeds `listAvailableLanguages` (src/types.ts lines 543-563), with the
fetched `PageData` supplied as an oracle. -/
def listAvailableLanguages (videoId : Str) (pageData : PageData) :
    Except ScribeError (List LanguageInfo) :=
  if playabilityBlocked pageData then .error (.videoNotFound videoId)
  else
    let tracks := tracksOf pageData
    .ok (tracks.map fun t =>
      { code := t.languageCode
        name := (t.name.bind (·.simpleText)).getD t.languageCode
        isAutoGenerated := t.kind == some (str "asr") })

-- ---------------------------------------------------------------------------
-- Main transcription function (src/types.ts lines 569-693)
-- ---------------------------------------------------------------------------

inductive TranscriptFormat where
  | text
  | srt
  | json
  deriving DecidableEq

structure TranscribeOptions where
  language : Option Str := none
  format : Option TranscriptFormat := none
  deriving DecidableEq

inductive TranscriptPayload where
  | formatted (s : Str)
  | segments (segs : List TranscriptSegment)
  deriving DecidableEq

structure TranscribeResult where
  videoId : Str
  language : Str
  isAutoGenerated : Bool
  transcript : TranscriptPayload
  deriving DecidableEq

/-- Embeds `transcribeVideo` (src/types.ts lines 581-693). The two network
round trips are oracle parameters: `pageData` is what `fetchPageData`
produced, `api` is the outcome of `fetchTranscriptViaApi`. -/
def transcribeVideo (input : Str) (options : TranscribeOptions)
    (pageData : PageData) (api : ApiOutcome) : Except ScribeError TranscribeResult :=
  let language := options.language.getD (str "en")
  let format := options.format.getD .text
  match extractVideoId input with
  | none =>
    .error (.transcriptionError
      (str "Could not extract a valid YouTube video ID from: \"" ++ input ++ str "\""))
  | some videoId =>
    if playabilityBlocked pageData then
      let reason :=
        ((pageData.playerResponse.bind (·.playabilityStatus)).bind (·.reason)).getD
          (str "unknown reason")
      .error (.videoNotFound (videoId ++ str " (" ++ reason ++ str ")"))
    else
      let existingChoice : Option Str :=
        match pageData.initialData with
        | none => none
        | some initialData =>
          match extractTranscriptParams initialData with
          | none => none
          | some existingParams =>
            if jsToLower (extractLangFromParams existingParams) == jsToLower language then
              some existingParams
            else none
      let _transcriptParams := existingChoice.getD (buildTranscriptParams videoId language)
      match api with
      | .failure msg => .error (.transcriptionError msg)
      | .captionsDisabled =>
        let tracks := tracksOf pageData
        if tracks.length > 0 then
          .error (.languageNotAvailable language (tracks.map (·.languageCode)))
        else .error (.captionsDisabled apiPreconditionMsg)
      | .ok apiResponse =>
        let segments := parseTranscriptSegments apiResponse
        if segments.length = 0 then
          let tracks := tracksOf pageData
          if tracks.length > 0 then
            .error (.languageNotAvailable language (tracks.map (·.languageCode)))
          else .error (.captionsDisabled videoId)
        else
          let tracks := tracksOf pageData
          let matchingTrack := tracks.find? fun t =>
            jsStartsWith (jsToLower t.languageCode) (jsToLower language)
          let isAutoGenerated := (matchingTrack.bind (·.kind)) == some (str "asr")
          let transcript : TranscriptPayload :=
            match format with
            | .text => .formatted (formatAsText segments)
            | .srt => .formatted (formatAsSrt segments)
            | .json => .segments segments
          .ok { videoId := videoId, language := language,
                isAutoGenerated := isAutoGenerated, transcript := transcript }

-- ---------------------------------------------------------------------------
-- Spec-side renderings and fixed test data used by the theorems below
-- ---------------------------------------------------------------------------

/-- Timestamp rendering exactly as the spec words it: hours =
floor(totalSeconds/3600), minutes = floor((totalSeconds mod 3600)/60),
seconds = totalSeconds mod 60, milliseconds = ms mod 1000, zero-padded to
2/2/2/3 digits. -/
def specSrtTimestamp (ms : Nat) : Str :=
  padZero 2 (natToChars (ms / 1000 / 3600)) ++ str ":" ++
  padZero 2 (natToChars (ms / 1000 % 3600 / 60)) ++ str ":" ++
  padZero 2 (natToChars (ms / 1000 % 60)) ++ str "," ++
  padZero 3 (natToChars (ms % 1000))

/-- One SRT cue as the spec words it: 1-based index, start and end
timestamps with end = start + duration, then the text. -/
def specSrtCue (i : Nat) (text : Str) (startMs durationMs : Nat) : Str :=
  natToChars (i + 1) ++ str "\n" ++ specSrtTimestamp startMs ++ str " --> " ++
    specSrtTimestamp (startMs + durationMs) ++ str "\n" ++ text

/-- The text a segment item contributes per the spec: empty when the item
has no renderer, otherwise the renderer text after newline-flattening and
trimming. -/
def derivedItemText (item : TranscriptSegmentItem) : Str :=
  match item.transcriptSegmentRenderer with
  | none => []
  | some renderer => jsTrim (replaceNewlines (snippetText renderer))

/-- An API response whose single action carries the given segment list. -/
def singleActionResponse (items : List TranscriptSegmentItem) : TranscriptApiResponse :=
  { actions := some
      [{ elementsCommand := some
          { transformEntityCommand := some
              { arguments := some
                  { transformTranscriptSegmentListArguments := some
                      { initialSegments := some items } } } } }] }

/-- The concrete bytes of the transcript proto that follow the field-2 tag
when the language is "de": the length byte, the URL-encoded inner
language proto, and the fixed trailing fields. -/
def deProtoTail : List Nat :=
  (utf8Encode (buildLangProto (str "de"))).length % 256 ::
    (utf8Encode (buildLangProto (str "de")) ++ [0x18, 0x01] ++
      [0x2a, (utf8Encode (str "engagement-panel-searchable-transcript-search-panel")).length % 256] ++
      utf8Encode (str "engagement-panel-searchable-transcript-search-panel") ++
      [0x30, 0x01, 0x38, 0x01, 0x40, 0x01])

instance exceptDecEq {e a : Type} [DecidableEq e] [DecidableEq a] :
    DecidableEq (Except e a) := fun x y =>
  match x, y with
  | .ok u, .ok v =>
    if h : u = v then isTrue (by rw [h]) else isFalse (by intro hc; cases hc; exact h rfl)
  | .error u, .error v =>
    if h : u = v then isTrue (by rw [h]) else isFalse (by intro hc; cases hc; exact h rfl)
  | .ok _, .error _ => isFalse (by intro hc; cases hc)
  | .error _, .ok _ => isFalse (by intro hc; cases hc)

/-- A minimal page state: page fetched but no embedded documents. -/
def emptyPageData : PageData :=
  { playerResponse := none, initialData := none, visitorData := none,
    clientVersion := str "2.20241121.01.00", cookies := [] }

/-- Page state whose player document reports an OK playability status and
an empty caption-track list. -/
def zeroTrackPageData : PageData :=
  { playerResponse := some
      { captions := some { playerCaptionsTracklistRenderer := some { captionTracks := some [] } }
        playabilityStatus := some { status := some (str "OK"), reason := none } }
    initialData := none, visitorData := none,
    clientVersion := str "2.20241121.01.00", cookies := [] }

def sampleTrackEn : CaptionTrack :=
  { baseUrl := [], languageCode := str "en", kind := some (str "asr"), name := none }

def sampleTrackDe : CaptionTrack :=
  { baseUrl := [], languageCode := str "de", kind := none, name := none }

/-- Page state with an OK playability status and caption tracks `en`
(auto-generated) and `de` (manual). -/
def enDePageData : PageData :=
  { playerResponse := some
      { captions := some
          { playerCaptionsTracklistRenderer := some
              { captionTracks := some [sampleTrackEn, sampleTrackDe] } }
        playabilityStatus := some { status := some (str "OK"), reason := none } }
    initialData := none, visitorData := none,
    clientVersion := str "2.20241121.01.00", cookies := [] }

/-- An API response carrying one transcript segment with text "Hello". -/
def sampleApiResponse : TranscriptApiResponse :=
  { actions := some
      [{ elementsCommand := some
          { transformEntityCommand := some
              { arguments := some
                  { transformTranscriptSegmentListArguments := some
                      { initialSegments := some
                          [{ transcriptSegmentRenderer := some
                              { startMs := some (str "0"), endMs := some (str "1000"),
                                snippet := some
                                  { elementsAttributedString := some { content := some (str "Hello") }
                                    runs := none } } }] } } } } }] }

/-- The result `transcribeVideo` produces for `sampleApiResponse` against
`enDePageData` with default options. -/
def sampleResult : TranscribeResult :=
  { videoId := str "dQw4w9WgXcQ", language := str "en", isAutoGenerated := true,
    transcript := .formatted (str "Hello") }

-- ---------------------------------------------------------------------------
-- Supporting lemmas
-- ---------------------------------------------------------------------------

theorem takeWhileAppend (p : Char → Bool) (l1 l2 : Str) (h : ∀ c ∈ l1, p c = true) :
    (l1 ++ l2).takeWhile p = l1 ++ l2.takeWhile p := by
  induction l1 with
  | nil => simp
  | cons c cs ih =>
    simp only [List.cons_append, List.takeWhile_cons, h c (by simp)]
    exact congrArg (c :: ·) (ih fun d hd => h d (by simp [hd]))

theorem dropWhileAppend (p : Char → Bool) (l1 l2 : Str) (h : ∀ c ∈ l1, p c = true) :
    (l1 ++ l2).dropWhile p = l2.dropWhile p := by
  induction l1 with
  | nil => simp
  | cons c cs ih =>
    simp only [List.cons_append, List.dropWhile_cons, h c (by simp)]
    exact ih fun d hd => h d (by simp [hd])

theorem takeWhileAll (p : Char → Bool) (l : Str) (h : ∀ c ∈ l, p c = true) :
    l.takeWhile p = l := List.takeWhile_eq_self_iff.mpr h

theorem dropWhileNil (p : Char → Bool) (l : Str) (h : ∀ c ∈ l, p c = true) :
    l.dropWhile p = [] := List.dropWhile_eq_nil_iff.mpr h

theorem dropWhileId (p : Char → Bool) (l : Str) (h : ∀ c ∈ l, p c = false) :
    l.dropWhile p = l := by
  cases l with
  | nil => rfl
  | cons c cs => simp [List.dropWhile_cons, h c (by simp)]

theorem takeWhileStop (p : Char → Bool) {c : Char} (l : Str) (h : p c = false) :
    (c :: l).takeWhile p = [] := by simp [List.takeWhile_cons, h]

theorem dropWhileStop (p : Char → Bool) {c : Char} (l : Str) (h : p c = false) :
    (c :: l).dropWhile p = c :: l := by simp [List.dropWhile_cons, h]

theorem dropWhileOfTakeWhileNil (p : Char → Bool) (t : Str) (h0 : t.takeWhile p = []) :
    t.dropWhile p = t := by
  cases t with
  | nil => rfl
  | cons c cs =>
    rw [List.takeWhile_cons] at h0
    rw [List.dropWhile_cons]
    split at h0
    · exact absurd h0 (by simp)
    · rw [if_neg (by simp_all)]

theorem idCharNotWS {c : Char} (h : isIdChar c = true) : isWS c = false := by
  cases hw : isWS c with
  | false => rfl
  | true =>
    exfalso
    simp only [isWS, Bool.or_eq_true, beq_iff_eq] at hw
    rcases hw with ((((((h1 | h1) | h1) | h1) | h1) | h1) | h1) <;>
      (subst h1; simp [isIdChar] at h)

theorem idCharBeqFalse (d : Char) {c : Char} (hc : isIdChar c = true) (hd : isIdChar d = false) :
    (c == d) = false := by
  cases h : c == d with
  | false => rfl
  | true =>
    have hcd : c = d := beq_iff_eq.mp h
    subst hcd
    rw [hc] at hd
    exact Bool.noConfusion hd

theorem notHashOfIdChar {c : Char} (h : isIdChar c = true) : (!(c == '#')) = true := by
  rw [idCharBeqFalse '#' h (by decide)]
  rfl

theorem idCharAscii {c : Char} (h : isIdChar c = true) : c.toNat < 128 := by
  simp only [isIdChar, Bool.or_eq_true, Bool.and_eq_true, decide_eq_true_eq, beq_iff_eq] at h
  rcases h with (((h1 | h1) | h1) | h1) | h1
  · omega
  · omega
  · omega
  · subst h1; decide
  · subst h1; decide

theorem idCharNe18 {c : Char} (h : isIdChar c = true) : (c.toNat == 18) = false := by
  simp only [isIdChar, Bool.or_eq_true, Bool.and_eq_true, decide_eq_true_eq, beq_iff_eq] at h
  simp only [beq_eq_false_iff_ne, ne_eq]
  rcases h with (((h1 | h1) | h1) | h1) | h1
  · omega
  · omega
  · omega
  · subst h1; decide
  · subst h1; decide

theorem jsTrimOfNoWS (l : Str) (h : ∀ c ∈ l, isWS c = false) : jsTrim l = l := by
  unfold jsTrim
  rw [dropWhileId _ _ h, dropWhileId _ _ (fun c hc => h c (List.mem_reverse.mp hc)),
    List.reverse_reverse]

theorem splitOnCharNoSep (sep : Char) (l : Str) (h : ∀ c ∈ l, (c == sep) = false) :
    splitOnChar sep l = [l] := by
  induction l with
  | nil => rfl
  | cons c cs ih =>
    unfold splitOnChar
    rw [if_neg (by simp [h c (by simp)]), ih fun d hd => h d (by simp [hd])]

theorem utf8EncodeCharAscii {c : Char} (h : c.toNat < 128) : utf8EncodeChar c = [c.toNat] := by
  unfold utf8EncodeChar
  rw [if_pos]
  exact h

theorem utf8DecodeAuxAscii (fuel : Nat) (l : List Nat) (h : ∀ b ∈ l, b < 128)
    (hf : l.length ≤ fuel) : utf8DecodeAux fuel l = l.map Char.ofNat := by
  induction fuel generalizing l with
  | zero =>
    cases l with
    | nil => rfl
    | cons b rest => simp at hf
  | succ fuel ih =>
    cases l with
    | nil => rfl
    | cons b rest =>
      have hb : b < 128 := h b (by simp)
      simp only [utf8DecodeAux, if_pos (by omega : b < 0x80), List.map_cons]
      refine congrArg _ (ih rest (fun x hx => h x (by simp [hx])) ?_)
      simp only [List.length_cons] at hf
      omega

theorem utf8DecodeMapToNat (l : Str) (h : ∀ c ∈ l, c.toNat < 128) :
    utf8Decode (l.map Char.toNat) = l := by
  unfold utf8Decode
  rw [utf8DecodeAuxAscii _ _ (fun b hb => by
      obtain ⟨c, hc, rfl⟩ := List.mem_map.mp hb
      exact h c hc) (by simp)]
  rw [List.map_map]
  exact (List.map_congr_left fun c _ => Char.ofNat_toNat c).trans (List.map_id l)

theorem utf8EncodeIdChars (l : Str) (h : ∀ c ∈ l, isIdChar c = true) :
    utf8Encode l = l.map Char.toNat := by
  induction l with
  | nil => rfl
  | cons c cs ih =>
    show utf8EncodeChar c ++ utf8Encode cs = c.toNat :: cs.map Char.toNat
    rw [utf8EncodeCharAscii (idCharAscii (h c (by simp))), ih fun d hd => h d (by simp [hd])]
    rfl

theorem formDecodeBytesIdChars (l : Str) (h : ∀ c ∈ l, isIdChar c = true) :
    formDecodeBytes l = l.map Char.toNat := by
  induction l with
  | nil => rfl
  | cons c cs ih =>
    have hc : isIdChar c = true := h c (by simp)
    have hpct : ¬c = '%' := fun hx => by subst hx; simp [isIdChar] at hc
    have hplus : ¬c = '+' := fun hx => by subst hx; simp [isIdChar] at hc
    have henc : utf8EncodeChar c = [c.toNat] := by
      unfold utf8EncodeChar
      rw [if_pos]
      exact idCharAscii hc
    rw [formDecodeBytes.eq_def]
    split
    · rename_i heq
      exact absurd heq (by simp)
    · rename_i h1 h2 rest heq
      injection heq with hx hy
      exact (hpct hx).elim
    · rename_i rest heq
      injection heq with hx hy
      exact (hplus hx).elim
    · rename_i c2 rest h1
      injection h1 with hx hy
      subst hx
      subst hy
      rw [henc, ih fun d hd => h d (by simp [hd])]
      rfl

theorem formDecodeIdChars (l : Str) (h : ∀ c ∈ l, isIdChar c = true) : formDecode l = l := by
  unfold formDecode
  rw [formDecodeBytesIdChars l h, utf8DecodeMapToNat l fun c hc => idCharAscii (h c hc)]

theorem parseURLHttps (r : Str) :
    parseURL (str "https://" ++ r) =
      (if r.takeWhile notUrlDelim = [] then none
       else
         some { hostname := jsToLower (r.takeWhile notUrlDelim)
                pathname :=
                  if ((r.dropWhile notUrlDelim).takeWhile (fun c => !(c == '#'))).takeWhile
                      (fun c => !(c == '?')) = [] then ['/']
                  else ((r.dropWhile notUrlDelim).takeWhile (fun c => !(c == '#'))).takeWhile
                      (fun c => !(c == '?'))
                search :=
                  (((r.dropWhile notUrlDelim).takeWhile (fun c => !(c == '#'))).dropWhile
                      (fun c => !(c == '?'))).drop 1 }) := by
  unfold parseURL
  rw [List.take_left' (by rfl : (str "https://").length = 8),
    List.drop_left' (by rfl : (str "https://").length = 8)]
  rw [if_pos rfl]

theorem searchParamsGetV (id : Str) (h : ∀ c ∈ id, isIdChar c = true) :
    searchParamsGet (str "v=" ++ id) (str "v") = some id := by
  unfold searchParamsGet
  rw [splitOnCharNoSep '&' (str "v=" ++ id) (fun c hc => by
    rcases List.mem_append.mp hc with hpre | hid
    · fin_cases hpre <;> decide
    · exact idCharBeqFalse '&' (h c hid) (by decide))]
  dsimp only
  have hkey : (formDecode ((str "v=" ++ id).takeWhile fun c => !(c == '=')) == str "v") = true := by
    show (formDecode (('v' :: '=' :: id).takeWhile fun c => !(c == '=')) == str "v") = true
    rw [List.takeWhile_cons, if_pos (by decide), List.takeWhile_cons, if_neg (by decide)]
    rfl
  rw [List.find?_cons, hkey]
  show some (formDecode ((('v' :: '=' :: id).dropWhile fun c => !(c == '=')).drop 1)) = some id
  rw [List.dropWhile_cons, if_pos (by decide), List.dropWhile_cons, if_neg (by decide),
    List.drop_succ_cons, List.drop_zero, formDecodeIdChars id h]

theorem urlWatch (id : Str) (hm : ∀ c ∈ id, isIdChar c = true) :
    parseURL (str "https://" ++ (str "youtube.com/watch?v=" ++ id)) =
      some { hostname := str "youtube.com", pathname := str "/watch", search := str "v=" ++ id } := by
  rw [parseURLHttps]
  have hstop1 : (str "/watch?v=" ++ id).takeWhile notUrlDelim = [] :=
    takeWhileStop notUrlDelim _ (by decide)
  have hstop2 : (str "/watch?v=" ++ id).dropWhile notUrlDelim = str "/watch?v=" ++ id :=
    dropWhileStop notUrlDelim _ (by decide)
  have hstop3 : (str "?v=" ++ id).takeWhile (fun c => !(c == '?')) = [] :=
    takeWhileStop _ _ (by decide)
  have hstop4 : (str "?v=" ++ id).dropWhile (fun c => !(c == '?')) = str "?v=" ++ id :=
    dropWhileStop _ _ (by decide)
  have hHost : (str "youtube.com/watch?v=" ++ id).takeWhile notUrlDelim = str "youtube.com" := by
    show (str "youtube.com" ++ (str "/watch?v=" ++ id)).takeWhile notUrlDelim = str "youtube.com"
    rw [takeWhileAppend _ _ _ (by decide), hstop1, List.append_nil]
  have hAfter : (str "youtube.com/watch?v=" ++ id).dropWhile notUrlDelim = str "/watch?v=" ++ id := by
    show (str "youtube.com" ++ (str "/watch?v=" ++ id)).dropWhile notUrlDelim = str "/watch?v=" ++ id
    rw [dropWhileAppend _ _ _ (by decide), hstop2]
  have hNoFrag : (str "/watch?v=" ++ id).takeWhile (fun c => !(c == '#')) = str "/watch?v=" ++ id := by
    rw [takeWhileAppend _ _ _ (by decide),
      takeWhileAll _ _ (fun c hc => notHashOfIdChar (hm c hc))]
  have hPath : (str "/watch?v=" ++ id).takeWhile (fun c => !(c == '?')) = str "/watch" := by
    show (str "/watch" ++ (str "?v=" ++ id)).takeWhile (fun c => !(c == '?')) = str "/watch"
    rw [takeWhileAppend _ _ _ (by decide), hstop3, List.append_nil]
  have hSearch : ((str "/watch?v=" ++ id).dropWhile (fun c => !(c == '?'))).drop 1 = str "v=" ++ id := by
    show ((str "/watch" ++ (str "?v=" ++ id)).dropWhile (fun c => !(c == '?'))).drop 1 = str "v=" ++ id
    rw [dropWhileAppend _ _ _ (by decide), hstop4]
    rfl
  rw [hHost, hAfter, hNoFrag, hPath, hSearch]
  rw [if_neg (by decide), if_neg (by decide)]
  rfl

theorem urlYtNoQuery (t : Str) (h0 : t.takeWhile notUrlDelim = [])
    (hh : ∀ c ∈ t, (!(c == '#')) = true) (hq : ∀ c ∈ t, (!(c == '?')) = true)
    (hne : t ≠ []) :
    parseURL (str "https://" ++ (str "youtube.com" ++ t)) =
      some { hostname := str "youtube.com", pathname := t, search := [] } := by
  rw [parseURLHttps]
  have hHost : (str "youtube.com" ++ t).takeWhile notUrlDelim = str "youtube.com" := by
    rw [takeWhileAppend _ _ _ (by decide), h0, List.append_nil]
  have hAfter : (str "youtube.com" ++ t).dropWhile notUrlDelim = t := by
    rw [dropWhileAppend _ _ _ (by decide), dropWhileOfTakeWhileNil _ _ h0]
  have hNoFrag : t.takeWhile (fun c => !(c == '#')) = t := takeWhileAll _ _ hh
  have hPath : t.takeWhile (fun c => !(c == '?')) = t := takeWhileAll _ _ hq
  have hSearch : (t.dropWhile (fun c => !(c == '?'))).drop 1 = [] := by
    rw [dropWhileNil _ _ hq]
    rfl
  rw [hHost, hAfter, hNoFrag, hPath, hSearch]
  rw [if_neg (by decide), if_neg hne]
  rfl

theorem urlBe (id : Str) (hm : ∀ c ∈ id, isIdChar c = true) :
    parseURL (str "https://" ++ (str "youtu.be/" ++ id)) =
      some { hostname := str "youtu.be", pathname := str "/" ++ id, search := [] } := by
  rw [parseURLHttps]
  have hstop1 : (str "/" ++ id).takeWhile notUrlDelim = [] := takeWhileStop notUrlDelim _ (by decide)
  have hstop2 : (str "/" ++ id).dropWhile notUrlDelim = str "/" ++ id :=
    dropWhileStop notUrlDelim _ (by decide)
  have hHost : (str "youtu.be/" ++ id).takeWhile notUrlDelim = str "youtu.be" := by
    show (str "youtu.be" ++ (str "/" ++ id)).takeWhile notUrlDelim = str "youtu.be"
    rw [takeWhileAppend _ _ _ (by decide), hstop1, List.append_nil]
  have hAfter : (str "youtu.be/" ++ id).dropWhile notUrlDelim = str "/" ++ id := by
    show (str "youtu.be" ++ (str "/" ++ id)).dropWhile notUrlDelim = str "/" ++ id
    rw [dropWhileAppend _ _ _ (by decide), hstop2]
  have hNoFrag : (str "/" ++ id).takeWhile (fun c => !(c == '#')) = str "/" ++ id := by
    rw [takeWhileAppend _ _ _ (by decide),
      takeWhileAll _ _ (fun c hc => notHashOfIdChar (hm c hc))]
  have hPath : (str "/" ++ id).takeWhile (fun c => !(c == '?')) = str "/" ++ id := by
    rw [takeWhileAppend _ _ _ (by decide),
      takeWhileAll _ _ (fun c hc => by simp [idCharBeqFalse '?' (hm c hc) (by decide)])]
  have hSearch : ((str "/" ++ id).dropWhile (fun c => !(c == '?'))).drop 1 = [] := by
    rw [dropWhileNil _ _ (fun c hc => by
      rcases List.mem_append.mp hc with hp | hi
      · fin_cases hp
        decide
      · simp [idCharBeqFalse '?' (hm c hi) (by decide)])]
    rfl
  rw [hHost, hAfter, hNoFrag, hPath, hSearch]
  rw [if_neg (by decide), if_neg (by exact List.cons_ne_nil '/' id)]
  rfl

theorem pathAltMatchSelf (pre : Str) (id : Str) (h1 : id.length = 11)
    (hm : ∀ c ∈ id, isIdChar c = true) : pathAltMatch pre (pre ++ id) = some id := by
  unfold pathAltMatch
  rw [List.take_left, if_pos rfl, List.drop_left]
  have htk : id.take 11 = id := by
    conv_lhs => rw [← h1]
    exact List.take_length id
  rw [htk]
  rw [if_pos]
  rw [h1]
  simp only [beq_self_eq_true, Bool.true_and]
  exact List.all_eq_true.mpr fun c hc => hm c hc

theorem pathAltMatchNe (pre : Str) (path : Str) (h : ¬path.take pre.length = pre) :
    pathAltMatch pre path = none := by
  unfold pathAltMatch
  rw [if_neg h]

theorem extractWatch (id : Str) (h1 : id.length = 11) (hm : ∀ c ∈ id, isIdChar c = true) :
    extractVideoId (str "youtube.com/watch?v=" ++ id) = some id := by
  unfold extractVideoId
  dsimp only
  have htrim : jsTrim (str "youtube.com/watch?v=" ++ id) = str "youtube.com/watch?v=" ++ id :=
    jsTrimOfNoWS _ (fun c hc => by
      rcases List.mem_append.mp hc with hp | hi
      · fin_cases hp <;> decide
      · exact idCharNotWS (hm c hi))
  rw [htrim]
  have hlen : ((str "youtube.com/watch?v=" ++ id).length == 11) = false := by
    rw [List.length_append, h1]
    decide
  have hbare : isBareVideoId (str "youtube.com/watch?v=" ++ id) = false := by
    unfold isBareVideoId
    rw [hlen, Bool.false_and]
  rw [hbare]
  simp only [Bool.false_eq_true, if_false]
  have htake : ¬(str "youtube.com/watch?v=" ++ id).take 4 = str "http" := by
    have : (str "youtube.com/watch?v=" ++ id).take 4 = str "yout" := by
      show (str "yout" ++ (str "ube.com/watch?v=" ++ id)).take 4 = str "yout"
      exact List.take_left' (by rfl)
    rw [this]
    decide
  rw [if_neg htake, urlWatch id hm]
  dsimp only
  have hwww : stripWww (str "youtube.com") = str "youtube.com" := by decide
  rw [hwww]
  rw [if_neg (by decide), if_pos (Or.inl rfl)]
  rw [searchParamsGetV id hm]
  dsimp only
  have hbareId : isBareVideoId id = true := by
    unfold isBareVideoId
    rw [h1]
    simp only [beq_self_eq_true, Bool.true_and]
    exact List.all_eq_true.mpr fun c hc => hm c hc
  have hne : id ≠ [] := by
    intro hnil
    rw [hnil] at h1
    simp at h1
  rw [if_pos ⟨hne, hbareId⟩]

theorem extractBare (id : Str) (h1 : id.length = 11) (hm : ∀ c ∈ id, isIdChar c = true) :
    extractVideoId id = some id := by
  unfold extractVideoId
  dsimp only
  have htrim : jsTrim id = id := jsTrimOfNoWS _ fun c hc => idCharNotWS (hm c hc)
  rw [htrim]
  have hbareId : isBareVideoId id = true := by
    unfold isBareVideoId
    rw [h1]
    simp only [beq_self_eq_true, Bool.true_and]
    exact List.all_eq_true.mpr fun c hc => hm c hc
  rw [hbareId]
  rfl

theorem extractBe (id : Str) (h1 : id.length = 11) (hm : ∀ c ∈ id, isIdChar c = true) :
    extractVideoId (str "youtu.be/" ++ id) = some id := by
  unfold extractVideoId
  dsimp only
  have htrim : jsTrim (str "youtu.be/" ++ id) = str "youtu.be/" ++ id :=
    jsTrimOfNoWS _ (fun c hc => by
      rcases List.mem_append.mp hc with hp | hi
      · fin_cases hp <;> decide
      · exact idCharNotWS (hm c hi))
  rw [htrim]
  have hlen : ((str "youtu.be/" ++ id).length == 11) = false := by
    rw [List.length_append, h1]
    decide
  have hbare : isBareVideoId (str "youtu.be/" ++ id) = false := by
    unfold isBareVideoId
    rw [hlen, Bool.false_and]
  rw [hbare]
  simp only [Bool.false_eq_true, if_false]
  have htake : ¬(str "youtu.be/" ++ id).take 4 = str "http" := by
    have : (str "youtu.be/" ++ id).take 4 = str "yout" := by
      show (str "yout" ++ (str "u.be/" ++ id)).take 4 = str "yout"
      exact List.take_left' (by rfl)
    rw [this]
    decide
  rw [if_neg htake, urlBe id hm]
  dsimp only
  have hwww : stripWww (str "youtu.be") = str "youtu.be" := by decide
  rw [hwww, if_pos rfl]
  have hdrop : (str "/" ++ id).drop 1 = id := rfl
  rw [hdrop, splitOnCharNoSep '/' id (fun c hc => idCharBeqFalse '/' (hm c hc) (by decide))]
  have hbareId : isBareVideoId id = true := by
    unfold isBareVideoId
    rw [h1]
    simp only [beq_self_eq_true, Bool.true_and]
    exact List.all_eq_true.mpr fun c hc => hm c hc
  have hne : id ≠ [] := by
    intro hnil
    rw [hnil] at h1
    simp at h1
  have hhead : [id].headD [] = id := rfl
  rw [hhead, if_pos ⟨hne, hbareId⟩]

theorem extractYtPathShape (t id : Str) (hne : t ≠ [])
    (h0 : t.takeWhile notUrlDelim = [])
    (hh : ∀ c ∈ t, (!(c == '#')) = true)
    (hq : ∀ c ∈ t, (!(c == '?')) = true)
    (hnws : ∀ c ∈ t, isWS c = false)
    (hlen : ((str "youtube.com" ++ t).length == 11) = false)
    (hpv : pathVideoId t = some id) :
    extractVideoId (str "youtube.com" ++ t) = some id := by
  unfold extractVideoId
  dsimp only
  have htrim : jsTrim (str "youtube.com" ++ t) = str "youtube.com" ++ t :=
    jsTrimOfNoWS _ (fun c hc => by
      rcases List.mem_append.mp hc with hp | hi
      · fin_cases hp <;> decide
      · exact hnws c hi)
  rw [htrim]
  have hbare : isBareVideoId (str "youtube.com" ++ t) = false := by
    unfold isBareVideoId
    rw [hlen, Bool.false_and]
  rw [hbare]
  simp only [Bool.false_eq_true, if_false]
  have htake : ¬(str "youtube.com" ++ t).take 4 = str "http" := by
    have h4 : (str "youtube.com" ++ t).take 4 = str "yout" := by
      show (str "yout" ++ (str "ube.com" ++ t)).take 4 = str "yout"
      exact List.take_left' (by rfl)
    rw [h4]
    decide
  rw [if_neg htake, urlYtNoQuery t h0 hh hq hne]
  dsimp only
  have hwww : stripWww (str "youtube.com") = str "youtube.com" := by decide
  rw [hwww]
  rw [if_neg (by decide), if_pos (Or.inl rfl)]
  have hsp : searchParamsGet [] (str "v") = none := by decide
  rw [hsp, hpv]

theorem extractShorts (id : Str) (h1 : id.length = 11) (hm : ∀ c ∈ id, isIdChar c = true) :
    extractVideoId (str "youtube.com/shorts/" ++ id) = some id := by
  show extractVideoId (str "youtube.com" ++ (str "/shorts/" ++ id)) = some id
  refine extractYtPathShape _ id (List.cons_ne_nil _ _) (takeWhileStop notUrlDelim _ (by decide))
    ?_ ?_ ?_ ?_ ?_
  · intro c hc
    rcases List.mem_append.mp hc with hp | hi
    · fin_cases hp <;> decide
    · exact notHashOfIdChar (hm c hi)
  · intro c hc
    rcases List.mem_append.mp hc with hp | hi
    · fin_cases hp <;> decide
    · simp [idCharBeqFalse '?' (hm c hi) (by decide)]
  · intro c hc
    rcases List.mem_append.mp hc with hp | hi
    · fin_cases hp <;> decide
    · exact idCharNotWS (hm c hi)
  · rw [List.length_append, List.length_append, h1]
    decide
  · unfold pathVideoId
    rw [pathAltMatchSelf _ id h1 hm]

theorem extractEmbed (id : Str) (h1 : id.length = 11) (hm : ∀ c ∈ id, isIdChar c = true) :
    extractVideoId (str "youtube.com/embed/" ++ id) = some id := by
  show extractVideoId (str "youtube.com" ++ (str "/embed/" ++ id)) = some id
  refine extractYtPathShape _ id (List.cons_ne_nil _ _) (takeWhileStop notUrlDelim _ (by decide))
    ?_ ?_ ?_ ?_ ?_
  · intro c hc
    rcases List.mem_append.mp hc with hp | hi
    · fin_cases hp <;> decide
    · exact notHashOfIdChar (hm c hi)
  · intro c hc
    rcases List.mem_append.mp hc with hp | hi
    · fin_cases hp <;> decide
    · simp [idCharBeqFalse '?' (hm c hi) (by decide)]
  · intro c hc
    rcases List.mem_append.mp hc with hp | hi
    · fin_cases hp <;> decide
    · exact idCharNotWS (hm c hi)
  · rw [List.length_append, List.length_append, h1]
    decide
  · unfold pathVideoId
    have hne1 : ¬(str "/embed/" ++ id).take (str "/shorts/").length = str "/shorts/" := by
      intro heq
      have h2 : ((str "/embed/" ++ id).take (str "/shorts/").length)[1]? = some 'e' := rfl
      rw [heq] at h2
      exact absurd h2 (by decide)
    rw [pathAltMatchNe _ _ hne1, pathAltMatchSelf _ id h1 hm]

theorem extractVPath (id : Str) (h1 : id.length = 11) (hm : ∀ c ∈ id, isIdChar c = true) :
    extractVideoId (str "youtube.com/v/" ++ id) = some id := by
  show extractVideoId (str "youtube.com" ++ (str "/v/" ++ id)) = some id
  refine extractYtPathShape _ id (List.cons_ne_nil _ _) (takeWhileStop notUrlDelim _ (by decide))
    ?_ ?_ ?_ ?_ ?_
  · intro c hc
    rcases List.mem_append.mp hc with hp | hi
    · fin_cases hp <;> decide
    · exact notHashOfIdChar (hm c hi)
  · intro c hc
    rcases List.mem_append.mp hc with hp | hi
    · fin_cases hp <;> decide
    · simp [idCharBeqFalse '?' (hm c hi) (by decide)]
  · intro c hc
    rcases List.mem_append.mp hc with hp | hi
    · fin_cases hp <;> decide
    · exact idCharNotWS (hm c hi)
  · rw [List.length_append, List.length_append, h1]
    decide
  · unfold pathVideoId
    have hne1 : ¬(str "/v/" ++ id).take (str "/shorts/").length = str "/shorts/" := by
      intro heq
      have h2 : ((str "/v/" ++ id).take (str "/shorts/").length)[1]? = some 'v' := rfl
      rw [heq] at h2
      exact absurd h2 (by decide)
    have hne2 : ¬(str "/v/" ++ id).take (str "/embed/").length = str "/embed/" := by
      intro heq
      have h2 : ((str "/v/" ++ id).take (str "/embed/").length)[1]? = some 'v' := rfl
      rw [heq] at h2
      exact absurd h2 (by decide)
    rw [pathAltMatchNe _ _ hne1, pathAltMatchNe _ _ hne2, pathAltMatchSelf _ id h1 hm]

theorem charSextetRoundTrip : ∀ n, n < 64 → charSextet (sextetChar n) = some n := by decide

theorem charSextetPad : charSextet '=' = none := by decide

theorem b64dec4 (a b c d : Nat) (rest : List Nat) :
    b64decodeSextets (a :: b :: c :: d :: rest) =
      (a * 4 + b / 16) :: (b % 16 * 16 + c / 4) :: (c % 4 * 64 + d) :: b64decodeSextets rest := rfl

theorem b64dec3 (a b c : Nat) :
    b64decodeSextets [a, b, c] = [a * 4 + b / 16, b % 16 * 16 + c / 4] := rfl

theorem b64dec2 (a b : Nat) : b64decodeSextets [a, b] = [a * 4 + b / 16] := rfl

theorem b64RoundTrip (l : List Nat) (h : ∀ x ∈ l, x < 256) : b64decode (b64encode l) = l := by
  unfold b64decode
  induction l using b64encode.induct with
  | case1 x y z rest ih =>
    have hx : x < 256 := h x (by simp)
    have hy : y < 256 := h y (by simp)
    have hz : z < 256 := h z (by simp)
    rw [b64encode]
    rw [List.filterMap_cons_some (charSextetRoundTrip _ (by omega)),
      List.filterMap_cons_some (charSextetRoundTrip _ (by omega)),
      List.filterMap_cons_some (charSextetRoundTrip _ (by omega)),
      List.filterMap_cons_some (charSextetRoundTrip _ (by omega))]
    rw [b64dec4, ih (fun a ha => h a (by simp [ha]))]
    refine congrArg₂ _ ?_ (congrArg₂ _ ?_ (congrArg₂ _ ?_ rfl)) <;> omega
  | case2 x y =>
    have hx : x < 256 := h x (by simp)
    have hy : y < 256 := h y (by simp)
    rw [b64encode]
    rw [List.filterMap_cons_some (charSextetRoundTrip _ (by omega)),
      List.filterMap_cons_some (charSextetRoundTrip _ (by omega)),
      List.filterMap_cons_some (charSextetRoundTrip _ (by omega)),
      List.filterMap_cons_none charSextetPad]
    rw [show List.filterMap charSextet [] = [] from rfl, b64dec3]
    refine congrArg₂ _ ?_ (congrArg₂ _ ?_ rfl) <;> omega
  | case3 x =>
    have hx : x < 256 := h x (by simp)
    rw [b64encode]
    rw [List.filterMap_cons_some (charSextetRoundTrip _ (by omega)),
      List.filterMap_cons_some (charSextetRoundTrip _ (by omega)),
      List.filterMap_cons_none charSextetPad,
      List.filterMap_cons_none charSextetPad]
    rw [show List.filterMap charSextet [] = [] from rfl, b64dec2]
    refine congrArg₂ _ ?_ rfl
    omega
  | case4 => rfl

theorem findIdxConsFalse (p : Nat → Bool) (a : Nat) (l : List Nat) (h : p a = false) :
    (a :: l).findIdx? p = (l.findIdx? p).map (· + 1) := by
  simp [List.findIdx?_cons, h]

theorem findIdxConsTrue (p : Nat → Bool) (a : Nat) (l : List Nat) (h : p a = true) :
    (a :: l).findIdx? p = some 0 := by
  simp [List.findIdx?_cons, h]

theorem dropAppendGe (l1 l2 : List Nat) (n : Nat) (h : l1.length ≤ n) :
    (l1 ++ l2).drop n = l2.drop (n - l1.length) := by
  rw [List.drop_append_eq_append_drop, List.drop_eq_nil_of_le h]
  rfl

theorem getDAppendGe (l1 l2 : List Nat) (n d : Nat) (h : l1.length ≤ n) :
    (l1 ++ l2).getD n d = l2.getD (n - l1.length) d := by
  simp [List.getD_eq_getElem?_getD, List.getElem?_append_right h]

theorem bufIdxSkeleton (front tail : List Nat) (hlen : front.length = 13)
    (hlast : ∀ a ∈ front.drop 12, (a == 0x12) = false) :
    bufIndexOfFrom (front ++ 0x12 :: tail) 0x12 12 = some 13 := by
  unfold bufIndexOfFrom
  have hdrop : (front ++ 0x12 :: tail).drop 12 = front.drop 12 ++ 0x12 :: tail := by
    rw [List.drop_append_eq_append_drop, show 12 - front.length = 0 by omega, List.drop_zero]
  rw [hdrop]
  have hlen1 : (front.drop 12).length = 1 := by rw [List.length_drop, hlen]
  obtain ⟨a, ha⟩ := List.length_eq_one.mp hlen1
  rw [ha]
  have hane : (a == 0x12) = false := hlast a (by rw [ha]; exact List.mem_singleton.mpr rfl)
  have hstep2 : ((0x12 :: tail).findIdx? fun b => b == 0x12) = some 0 :=
    findIdxConsTrue (fun b => b == 0x12) 0x12 tail (by simp)
  have hstep : ((a :: 0x12 :: tail).findIdx? fun b => b == 0x12) = some 1 := by
    rw [findIdxConsFalse (fun b => b == 0x12) a (0x12 :: tail) hane, hstep2]
    rfl
  show (((a :: 0x12 :: tail).findIdx? fun b => b == 0x12).map (12 + ·)) = some 13
  rw [hstep]
  rfl

theorem getDSkeleton (front tail : List Nat) (hlen : front.length = 13) :
    (front ++ 0x12 :: tail).getD (13 + 1) 0 = tail.getD 0 0 := by
  rw [getDAppendGe _ _ _ _ (by omega), show 13 + 1 - front.length = 1 by omega]
  rfl

theorem dropSkeleton (front tail : List Nat) (hlen : front.length = 13) :
    (front ++ 0x12 :: tail).drop (13 + 2) = tail.drop 1 := by
  rw [dropAppendGe _ _ _ (by omega), show 13 + 2 - front.length = 2 by omega]
  rfl

theorem fdivOfNat (m n : Nat) : Int.fdiv (Int.ofNat m) (Int.ofNat n) = Int.ofNat (m / n) := by
  cases m with
  | zero => simp [Int.fdiv]
  | succ m => rfl

theorem tmodOfNat (m n : Nat) : Int.tmod (Int.ofNat m) (Int.ofNat n) = Int.ofNat (m % n) := by
  cases m with
  | zero => simp [Int.tmod]
  | succ m => rfl

theorem msToSrt_eq_spec (ms : Nat) :
    msToSrtTimestamp (some (Int.ofNat ms)) = specSrtTimestamp ms := by
  have h1000 : (1000 : Int) = Int.ofNat 1000 := rfl
  have h3600 : (3600 : Int) = Int.ofNat 3600 := rfl
  have h60 : (60 : Int) = Int.ofNat 60 := rfl
  simp only [msToSrtTimestamp, specSrtTimestamp, jsFloorDiv, jsMod, h1000, h3600, h60,
    fdivOfNat, tmodOfNat, jsNumToChars, intToChars]

theorem srtCueChars (n : Nat) (t : Str) (s d : Nat) :
    natToChars (n + 1) ++ str "\n" ++ msToSrtTimestamp (some (Int.ofNat s)) ++ str " --> " ++
      msToSrtTimestamp (jsAdd (some (Int.ofNat s)) (some (Int.ofNat d))) ++ str "\n" ++ t =
      specSrtCue n t s d := by
  rw [show jsAdd (some (Int.ofNat s)) (some (Int.ofNat d)) = some (Int.ofNat (s + d)) from rfl,
    msToSrt_eq_spec, msToSrt_eq_spec]
  rfl

theorem srtCueList (n : Nat) (l : List (Str × Nat × Nat)) :
    ((l.map fun p =>
        ({ text := p.1, startMs := some (Int.ofNat p.2.1),
           durationMs := some (Int.ofNat p.2.2) } : TranscriptSegment)).enumFrom n).map
        (fun q => natToChars (q.1 + 1) ++ str "\n" ++ msToSrtTimestamp q.2.startMs ++
          str " --> " ++ msToSrtTimestamp (jsAdd q.2.startMs q.2.durationMs) ++ str "\n" ++ q.2.text) =
      (l.enumFrom n).map fun q => specSrtCue q.1 q.2.1 q.2.2.1 q.2.2.2 := by
  induction l generalizing n with
  | nil => rfl
  | cons p rest ih =>
    obtain ⟨t, s, d⟩ := p
    simp only [List.map_cons, List.enumFrom, List.map]
    exact congrArg₂ List.cons (srtCueChars n t s d) (ih (n + 1))

theorem formatAsSrt_eq_spec (segs : List (Str × Nat × Nat)) :
    formatAsSrt (segs.map fun p =>
        { text := p.1, startMs := some (Int.ofNat p.2.1), durationMs := some (Int.ofNat p.2.2) }) =
      List.intercalate (str "\n\n")
        (segs.enum.map fun q => specSrtCue q.1 q.2.1 q.2.2.1 q.2.2.2) := by
  unfold formatAsSrt
  exact congrArg (List.intercalate (str "\n\n")) (srtCueList 0 segs)

theorem processSegmentItems_texts (items : List TranscriptSegmentItem) :
    (processSegmentItems items).map (·.text) =
      (items.map derivedItemText).filter (fun t => !t.isEmpty) := by
  induction items with
  | nil => rfl
  | cons item rest ih =>
    cases hr : item.transcriptSegmentRenderer with
    | none => simp [processSegmentItems, derivedItemText, hr, ih]
    | some renderer =>
      by_cases htext : jsTrim (replaceNewlines (snippetText renderer)) = []
      · simp [processSegmentItems, derivedItemText, hr, htext, ih]
      · simp [processSegmentItems, derivedItemText, hr, htext, ih, List.isEmpty_iff]

-- ---------------------------------------------------------------------------
-- The claims
-- ---------------------------------------------------------------------------

/-- Claim C1 (amended). For page states with zero caption tracks, the
transcription operation — when the API call reports captions-disabled or
segment parsing yields an empty list — fails with CaptionsDisabled and
never with LanguageUnavailable; the catalog listing operation, however,
does not fail at all in that situation: it returns the empty list (the
claim's assertion that `listAvailableLanguages` also fails with
CaptionsDisabled is refuted by `scribe_c1_counterexample`). -/
theorem scribe_c1_no_tracks_captions_disabled (input videoId : Str)
    (options : TranscribeOptions) (pageData : PageData) (api : ApiOutcome)
    (hv : extractVideoId input = some videoId)
    (hp : playabilityBlocked pageData = false)
    (ht : tracksOf pageData = [])
    (ha : api = ApiOutcome.captionsDisabled ∨
      ∃ resp, api = ApiOutcome.ok resp ∧ parseTranscriptSegments resp = []) :
    (∃ m, transcribeVideo input options pageData api = .error (.captionsDisabled m)) ∧
    (∀ lang avail,
      transcribeVideo input options pageData api ≠ .error (.languageNotAvailable lang avail)) ∧
    listAvailableLanguages videoId pageData = .ok [] := by
  have hres : ∃ m, transcribeVideo input options pageData api = .error (.captionsDisabled m) := by
    rcases ha with hcd | ⟨resp, hok, hseg⟩
    · exact ⟨apiPreconditionMsg, by simp [transcribeVideo, hv, hp, ht, hcd]⟩
    · exact ⟨videoId, by simp [transcribeVideo, hv, hp, ht, hok, hseg]⟩
  rcases hres with ⟨m, hm⟩
  refine ⟨⟨m, hm⟩, ?_, ?_⟩
  · intro lang avail hcontra
    rw [hm] at hcontra
    simp at hcontra
  · simp [listAvailableLanguages, hp, ht]

/-- Counterexample to claim C1 as stated: on a concrete page state whose
player document reports status OK and an empty caption-track list, the
catalog listing succeeds with the empty list — it does not fail with the
CaptionsDisabled error (nor any error). -/
theorem scribe_c1_counterexample :
    listAvailableLanguages (str "dQw4w9WgXcQ") zeroTrackPageData = Except.ok [] := by decide

/-- Witness for the amended C1 theorem at a concrete zero-track page
state. -/
theorem scribe_c1_witness :
    transcribeVideo (str "dQw4w9WgXcQ") {} zeroTrackPageData ApiOutcome.captionsDisabled ≠
      .error (.languageNotAvailable (str "en") []) ∧
    listAvailableLanguages (str "dQw4w9WgXcQ") zeroTrackPageData = .ok [] := by
  have h := scribe_c1_no_tracks_captions_disabled (str "dQw4w9WgXcQ") (str "dQw4w9WgXcQ") {}
    zeroTrackPageData ApiOutcome.captionsDisabled (by decide) (by decide) (by decide) (Or.inl rfl)
  exact ⟨h.2.1 (str "en") [], h.2.2⟩

/-- Claim C2. When the page state reports caption tracks `en` and `de`,
the requested language is "fr", and the transcript API call raises the
captions-disabled error or the parsed segment list is empty,
`transcribeVideo` fails with LanguageNotAvailable carrying exactly
["en", "de"], in track order. -/
theorem scribe_c2_language_unavailable (input videoId : Str)
    (options : TranscribeOptions) (pageData : PageData) (api : ApiOutcome)
    (enTrack deTrack : CaptionTrack)
    (hv : extractVideoId input = some videoId)
    (hl : options.language = some (str "fr"))
    (hp : playabilityBlocked pageData = false)
    (ht : tracksOf pageData = [enTrack, deTrack])
    (hen : enTrack.languageCode = str "en")
    (hde : deTrack.languageCode = str "de")
    (ha : api = ApiOutcome.captionsDisabled ∨
      ∃ resp, api = ApiOutcome.ok resp ∧ parseTranscriptSegments resp = []) :
    transcribeVideo input options pageData api =
      .error (.languageNotAvailable (str "fr") [str "en", str "de"]) := by
  rcases ha with hcd | ⟨resp, hok, hseg⟩
  · simp [transcribeVideo, hv, hl, hp, ht, hcd, hen, hde]
  · simp [transcribeVideo, hv, hl, hp, ht, hok, hseg, hen, hde]

/-- Witness for C2 at a concrete page state with en/de tracks. -/
theorem scribe_c2_witness :
    transcribeVideo (str "dQw4w9WgXcQ") { language := some (str "fr") } enDePageData
      ApiOutcome.captionsDisabled =
      .error (.languageNotAvailable (str "fr") [str "en", str "de"]) :=
  scribe_c2_language_unavailable (str "dQw4w9WgXcQ") (str "dQw4w9WgXcQ")
    { language := some (str "fr") } enDePageData ApiOutcome.captionsDisabled
    sampleTrackEn sampleTrackDe (by decide) rfl (by decide) (by decide) (by decide) (by decide)
    (Or.inl rfl)

theorem scribe_c3_lang_round_trip (vid : Str) (h1 : vid.length = 11)
    (hm : ∀ c ∈ vid, isIdChar c = true) :
    extractLangFromParams (buildTranscriptParams vid (str "de")) = str "de" := by
  unfold buildTranscriptParams
  dsimp only
  rw [utf8EncodeIdChars vid hm]
  have h11 : (vid.map Char.toNat).length = 11 := by simp [h1]
  rw [h11]
  unfold extractLangFromParams
  dsimp only
  rw [b64RoundTrip _ ?hall]
  case hall =>
    intro x hx
    rcases List.mem_append.mp hx with hx | h8
    · rcases List.mem_append.mp hx with hx | h7
      · rcases List.mem_append.mp hx with hx | h6
        · rcases List.mem_append.mp hx with hx | h5
          · rcases List.mem_append.mp hx with hx | h4
            · rcases List.mem_append.mp hx with hx | h3
              · rcases List.mem_append.mp hx with h1 | h2
                · fin_cases h1 <;> decide
                · obtain ⟨c, hc, rfl⟩ := List.mem_map.mp h2
                  have := idCharAscii (hm c hc)
                  omega
              · revert h3
                have hconc : ∀ y ∈ [0x12, (utf8Encode (buildLangProto (str "de"))).length % 256],
                    y < 256 := by decide
                exact fun h3 => hconc x h3
            · revert h4
              have hconc : ∀ y ∈ utf8Encode (buildLangProto (str "de")), y < 256 := by decide
              exact fun h4 => hconc x h4
          · fin_cases h5 <;> decide
        · revert h6
          have hconc : ∀ y ∈
              [0x2a, (utf8Encode (str "engagement-panel-searchable-transcript-search-panel")).length % 256],
              y < 256 := by decide
          exact fun h6 => hconc x h6
      · revert h7
        have hconc : ∀ y ∈ utf8Encode (str "engagement-panel-searchable-transcript-search-panel"),
            y < 256 := by decide
        exact fun h7 => hconc x h7
    · fin_cases h8 <;> decide
  have hshape :
      [0x0a, 11 % 256] ++ vid.map Char.toNat ++
          [0x12, (utf8Encode (buildLangProto (str "de"))).length % 256] ++
          utf8Encode (buildLangProto (str "de")) ++ [0x18, 0x01] ++
          [0x2a, (utf8Encode (str "engagement-panel-searchable-transcript-search-panel")).length % 256] ++
          utf8Encode (str "engagement-panel-searchable-transcript-search-panel") ++
          [0x30, 0x01, 0x38, 0x01, 0x40, 0x01] =
        ([0x0a, 11 % 256] ++ vid.map Char.toNat) ++ 0x12 :: deProtoTail := by
    simp only [deProtoTail, List.append_assoc, List.cons_append, List.nil_append]
  rw [hshape]
  have hfrontlen : ([0x0a, 11 % 256] ++ vid.map Char.toNat).length = 13 := by
    rw [List.length_append, List.length_map, h1]
    decide
  rw [bufIdxSkeleton _ _ hfrontlen ?hlast]
  case hlast =>
    intro a ha
    have hmem : a ∈ [0x0a, 11 % 256] ++ vid.map Char.toNat := List.mem_of_mem_drop ha
    rcases List.mem_append.mp hmem with hpre | hmap
    · have hidx : (List.drop 12 ([0x0a, 11 % 256] ++ vid.map Char.toNat)).length = 1 := by
        rw [List.length_drop, hfrontlen]
      fin_cases hpre <;> decide
    · obtain ⟨c, hc, rfl⟩ := List.mem_map.mp hmap
      exact idCharNe18 (hm c hc)
  dsimp only
  rw [getDSkeleton _ _ hfrontlen, dropSkeleton _ _ hfrontlen]
  decide
/-- Witness for C3 at a concrete 11-character video identifier. -/
theorem scribe_c3_witness :
    extractLangFromParams (buildTranscriptParams (str "dQw4w9WgXcQ") (str "de")) = str "de" :=
  scribe_c3_lang_round_trip (str "dQw4w9WgXcQ") (by decide) (by decide)

/-- Claim C4. For every 11-character token of the class [A-Za-z0-9_-],
identifier resolution returns exactly that token for all six supported
input shapes: the bare identifier, youtube.com/watch?v=, youtu.be/,
youtube.com/shorts/, youtube.com/embed/ and youtube.com/v/. -/
theorem scribe_c4_url_shapes_resolve (id : Str) (h1 : id.length = 11)
    (h2 : id.all isIdChar = true) :
    extractVideoId id = some id ∧
    extractVideoId (str "youtube.com/watch?v=" ++ id) = some id ∧
    extractVideoId (str "youtu.be/" ++ id) = some id ∧
    extractVideoId (str "youtube.com/shorts/" ++ id) = some id ∧
    extractVideoId (str "youtube.com/embed/" ++ id) = some id ∧
    extractVideoId (str "youtube.com/v/" ++ id) = some id := by
  have hm : ∀ c ∈ id, isIdChar c = true := fun c hc => List.all_eq_true.mp h2 c hc
  exact ⟨extractBare id h1 hm, extractWatch id h1 hm, extractBe id h1 hm,
    extractShorts id h1 hm, extractEmbed id h1 hm, extractVPath id h1 hm⟩

/-- Witness for C4 at the concrete identifier dQw4w9WgXcQ. -/
theorem scribe_c4_witness :
    extractVideoId (str "dQw4w9WgXcQ") = some (str "dQw4w9WgXcQ") ∧
    extractVideoId (str "youtube.com/watch?v=" ++ str "dQw4w9WgXcQ") = some (str "dQw4w9WgXcQ") ∧
    extractVideoId (str "youtu.be/" ++ str "dQw4w9WgXcQ") = some (str "dQw4w9WgXcQ") ∧
    extractVideoId (str "youtube.com/shorts/" ++ str "dQw4w9WgXcQ") = some (str "dQw4w9WgXcQ") ∧
    extractVideoId (str "youtube.com/embed/" ++ str "dQw4w9WgXcQ") = some (str "dQw4w9WgXcQ") ∧
    extractVideoId (str "youtube.com/v/" ++ str "dQw4w9WgXcQ") = some (str "dQw4w9WgXcQ") :=
  scribe_c4_url_shapes_resolve (str "dQw4w9WgXcQ") (by decide) (by decide)

/-- Claim C5 (amended). When no video identifier can be parsed from the
input, `transcribeVideo` fails with the generic TranscriptionError class,
carrying a message quoting the input. The original claim said this error
kind is distinct from the generic TranscriptionFailure kind; the code uses
the same `TranscriptionError` class for both, refuted by
`scribe_c5_counterexample`. -/
theorem scribe_c5_invalid_id_generic_error (input : Str) (options : TranscribeOptions)
    (pageData : PageData) (api : ApiOutcome)
    (h : extractVideoId input = none) :
    transcribeVideo input options pageData api =
      .error (.transcriptionError
        (str "Could not extract a valid YouTube video ID from: \"" ++ input ++ str "\"")) := by
  simp [transcribeVideo, h]

/-- Counterexample to claim C5 as stated: on the concrete input "hello",
which yields no video identifier, `transcribeVideo` fails with the
`transcriptionError` constructor — the generic TranscriptionFailure kind —
not with a distinct identifier-invalid kind (the error model mirrors
src/lib/errors.ts, which has no such class). -/
theorem scribe_c5_counterexample :
    extractVideoId (str "hello") = none ∧
    transcribeVideo (str "hello") {} emptyPageData ApiOutcome.captionsDisabled =
      .error (.transcriptionError
        (str "Could not extract a valid YouTube video ID from: \"hello\"")) := by
  constructor
  · decide
  · decide

/-- Witness for the amended C5 theorem at the concrete input "***". -/
theorem scribe_c5_witness :
    extractVideoId (str "***") = none ∧
    transcribeVideo (str "***") {} emptyPageData (ApiOutcome.failure []) =
      .error (.transcriptionError
        (str "Could not extract a valid YouTube video ID from: \"***\"")) :=
  ⟨by decide,
    scribe_c5_invalid_id_generic_error (str "***") {} emptyPageData (ApiOutcome.failure [])
      (by decide)⟩

/-- Claim C6. Segment parsing drops exactly those entries whose derived
text — after newline-flattening and trimming — is empty (items without a
renderer derive the empty text), and the surviving segments keep the
relative order of the input segment list: the parsed texts are exactly
the filter of the derived texts. -/
theorem scribe_c6_segment_filter_order (items : List TranscriptSegmentItem) :
    (parseTranscriptSegments (singleActionResponse items)).map (·.text) =
      (items.map derivedItemText).filter (fun t => !t.isEmpty) := by
  rw [← processSegmentItems_texts]
  unfold parseTranscriptSegments singleActionResponse parseActions actionSegments
  dsimp only [Option.bind, Option.getD]
  cases items with
  | nil => rfl
  | cons item rest =>
    rw [if_neg (by simp)]
    split
    · rfl
    · rename_i hres
      have h0 : processSegmentItems (item :: rest) = [] := by
        cases hh : processSegmentItems (item :: rest) with
        | nil => rfl
        | cons a b => rw [hh] at hres; simp at hres
      simp [parseActions, h0]

/-- Claim C7. SRT formatting follows the spec's cue structure: the
timestamp math matches the spec's floor/mod formula with 2/2/2/3-digit
zero padding, each cue is a 1-based index, start and end = start+duration
timestamps and the text, and the concrete single-segment example renders
as "1\n00:00:01,000 --> 00:00:03,000\nHi". -/
theorem scribe_c7_srt_format :
    (∀ ms : Nat, msToSrtTimestamp (some (Int.ofNat ms)) = specSrtTimestamp ms) ∧
    (∀ segs : List (Str × Nat × Nat),
      formatAsSrt (segs.map fun p =>
          { text := p.1, startMs := some (Int.ofNat p.2.1), durationMs := some (Int.ofNat p.2.2) }) =
        List.intercalate (str "\n\n")
          (segs.enum.map fun q => specSrtCue q.1 q.2.1 q.2.2.1 q.2.2.2)) ∧
    formatAsSrt [{ text := str "Hi", startMs := some 1000, durationMs := some 2000 }] =
      str "1\n00:00:01,000 --> 00:00:03,000\nHi" :=
  ⟨msToSrt_eq_spec, formatAsSrt_eq_spec, by decide⟩

/-- Claim C8. Every successful `transcribeVideo` call returns a result
whose language field equals the caller's requested language code (default
"en"), regardless of page state and API outcome. -/
theorem scribe_c8_requested_language_invariant (input : Str) (options : TranscribeOptions)
    (pageData : PageData) (api : ApiOutcome) (res : TranscribeResult)
    (h : transcribeVideo input options pageData api = .ok res) :
    res.language = options.language.getD (str "en") := by
  unfold transcribeVideo at h
  dsimp only at h
  repeat' split at h
  all_goals first
    | (simp only [Except.ok.injEq] at h; cases h; rfl)
    | exact absurd h (by simp)

/-- Witness for C8 at a concrete successful call. -/
theorem scribe_c8_witness :
    sampleResult.language = ({} : TranscribeOptions).language.getD (str "en") :=
  scribe_c8_requested_language_invariant (str "dQw4w9WgXcQ") {} enDePageData
    (ApiOutcome.ok sampleApiResponse) sampleResult (by decide)

/-- Claim C9. When the player document is absent, or present but without
a playability status field, the playability check passes: transcription
never fails with VideoNotFound, and the catalog listing succeeds. -/
theorem scribe_c9_missing_playability_passes (pageData : PageData)
    (hp : pageData.playerResponse = none ∨
      ∃ pr, pageData.playerResponse = some pr ∧ pr.playabilityStatus = none) :
    (∀ input options api m,
      transcribeVideo input options pageData api ≠ .error (.videoNotFound m)) ∧
    (∀ videoId, ∃ infos, listAvailableLanguages videoId pageData = .ok infos) := by
  have hb : playabilityBlocked pageData = false := by
    unfold playabilityBlocked
    rcases hp with hnone | ⟨pr, hpr, hps⟩
    · simp [hnone]
    · simp [hpr, hps]
  constructor
  · intro input options api m hcontra
    unfold transcribeVideo at hcontra
    dsimp only at hcontra
    rw [hb] at hcontra
    repeat' split at hcontra
    all_goals simp_all
  · intro videoId
    exact ⟨_, by unfold listAvailableLanguages; rw [hb]; rfl⟩

/-- Witness for C9 at a page state with no player document. -/
theorem scribe_c9_witness :
    transcribeVideo (str "dQw4w9WgXcQ") {} emptyPageData ApiOutcome.captionsDisabled ≠
      .error (.videoNotFound (str "dQw4w9WgXcQ (unknown reason)")) :=
  (scribe_c9_missing_playability_passes emptyPageData (Or.inl rfl)).1
    (str "dQw4w9WgXcQ") {} ApiOutcome.captionsDisabled (str "dQw4w9WgXcQ (unknown reason)")

/-- Claim C10. For every successful `transcribeVideo` call, the
isAutoGenerated flag is false when no caption track prefix-matches the
requested language case-insensitively, and it is true exactly when the
first such matching track exists and its kind marker equals "asr". -/
theorem scribe_c10_auto_generated_flag (input : Str) (options : TranscribeOptions)
    (pageData : PageData) (api : ApiOutcome) (res : TranscribeResult)
    (h : transcribeVideo input options pageData api = .ok res) :
    ((tracksOf pageData).find? (fun t =>
        jsStartsWith (jsToLower t.languageCode) (jsToLower (options.language.getD (str "en")))) = none →
      res.isAutoGenerated = false) ∧
    (res.isAutoGenerated = true ↔
      ∃ t, (tracksOf pageData).find? (fun t =>
          jsStartsWith (jsToLower t.languageCode) (jsToLower (options.language.getD (str "en")))) = some t ∧
        t.kind = some (str "asr")) := by
  have hflag : res.isAutoGenerated =
      (((tracksOf pageData).find? (fun t =>
          jsStartsWith (jsToLower t.languageCode) (jsToLower (options.language.getD (str "en"))))).bind
        (·.kind) == some (str "asr")) := by
    unfold transcribeVideo at h
    dsimp only at h
    repeat' split at h
    all_goals first
      | (simp only [Except.ok.injEq] at h; cases h; rfl)
      | exact absurd h (by simp)
  rw [hflag]
  cases hf : (tracksOf pageData).find? (fun t =>
      jsStartsWith (jsToLower t.languageCode) (jsToLower (options.language.getD (str "en")))) with
  | none => simp
  | some t =>
    simp only [Option.some.injEq, Option.bind_some]
    constructor
    · intro hcontra; cases hcontra
    · constructor
      · intro hk
        exact ⟨t, rfl, by simpa using hk⟩
      · rintro ⟨u, hu, hk⟩
        cases hu
        simp [hk]

/-- Witness for C10 at a concrete successful call whose matching track en
is auto-generated. -/
theorem scribe_c10_witness :
    ((tracksOf enDePageData).find? (fun t =>
        jsStartsWith (jsToLower t.languageCode) (jsToLower (({} : TranscribeOptions).language.getD (str "en")))) = none →
      sampleResult.isAutoGenerated = false) ∧
    (sampleResult.isAutoGenerated = true ↔
      ∃ t, (tracksOf enDePageData).find? (fun t =>
          jsStartsWith (jsToLower t.languageCode) (jsToLower (({} : TranscribeOptions).language.getD (str "en")))) = some t ∧
        t.kind = some (str "asr")) :=
  scribe_c10_auto_generated_flag (str "dQw4w9WgXcQ") {} enDePageData
    (ApiOutcome.ok sampleApiResponse) sampleResult (by decide)
